import Mathlib

/-!
# FarmPulse video-call signaling: a shallow embedding

This file embeds the call-session signaling layer of the FarmPulse
application: the `VideoCall` React component (its signaling socket
handlers, ICE-candidate handler, hangup/teardown path and the
mute/video toggles), the `FarmerDashboard.handleConnectVet` and
`VetDashboard.joinCall` request builders, the two WebSocket `onclose`
reconnect handlers, and — modelled from the design specification, since
the backend is not part of the frontend sources — the session store and
lifecycle coordinator state machine.  Theorems below settle the stated
properties of this layer.
-/

namespace FarmPulse

/-- Kind of a local media track. -/
inductive TrackKind
| audio
| video
deriving DecidableEq

/-- A local media track: its kind, the `enabled` flag toggled by the
mute / video buttons, and whether `stop()` has been called on it. -/
structure MediaTrack where
  kind : TrackKind
  enabled : Bool
  stopped : Bool
deriving DecidableEq

/-- WebSocket `readyState` values (`opened` stands for `WebSocket.OPEN`). -/
inductive ReadyState
| connecting
| opened
| closing
| closed
deriving DecidableEq

/-- Signaling messages the client can receive, the `data.type`
discriminator of the `onmessage` dispatcher. -/
inductive SigMsg
| ready
| offer
| answer
| iceCandidate
| hangup
| peerDisconnected
deriving DecidableEq

/-- Message types the client writes to the signaling socket. -/
inductive OutMsg
| ready
| offer
| answer
| iceCandidate
| hangup
deriving DecidableEq

/-- State of the `VideoCall` component: the computed signaling role,
the local media stream (present or not, with its tracks), the
`RTCPeerConnection` (`pc = some b` means a connection exists and `b`
records whether `close()` was called), the signaling socket and its
`readyState`, the `callStatus` string, the two toggle flags, and
whether the user is still on the call page (`navigate(-1)` leaves it). -/
structure ClientState where
  role : String
  localStream : Option (List MediaTrack)
  pc : Option Bool
  socket : Option ReadyState
  callStatus : String
  isMuted : Bool
  isVideoOff : Bool
  onCallPage : Bool
deriving DecidableEq

/-- `track.stop()`. -/
def stopTrack (t : MediaTrack) : MediaTrack :=
  { t with stopped := true }

/-- `cleanup` from the source: stop every local track, close the peer
connection if present, close the signaling socket if present. -/
def cleanup (st : ClientState) : ClientState :=
  { st with
    localStream := st.localStream.map (List.map stopTrack)
    pc := st.pc.map fun _ => true
    socket := st.socket.map fun _ => ReadyState.closed }

/-- `handleRemoteHangup`: `cleanup()` then `navigate(-1)`. -/
def handleRemoteHangup (st : ClientState) : ClientState :=
  { cleanup st with onCallPage := false }

/-- `endCall`: send `hangup` when the socket exists and is OPEN (the
send is computed from the state before teardown), then `cleanup()` and
`navigate(-1)`. -/
def endCall (st : ClientState) : List OutMsg × ClientState :=
  (if st.socket = some ReadyState.opened then [OutMsg.hangup] else [],
   { cleanup st with onCallPage := false })

/-- `track.enabled = !track.enabled` applied to audio tracks only. -/
def flipAudio (t : MediaTrack) : MediaTrack :=
  if t.kind = TrackKind.audio then { t with enabled := !t.enabled } else t

/-- `track.enabled = !track.enabled` applied to video tracks only. -/
def flipVideo (t : MediaTrack) : MediaTrack :=
  if t.kind = TrackKind.video then { t with enabled := !t.enabled } else t

/-- `toggleMute`: when a local stream exists, flip `enabled` on every
audio track and flip `isMuted`; otherwise do nothing. -/
def toggleMute (st : ClientState) : ClientState :=
  match st.localStream with
  | none => st
  | some l =>
      { st with localStream := some (l.map flipAudio), isMuted := !st.isMuted }

/-- `toggleVideo`: when a local stream exists, flip `enabled` on every
video track and flip `isVideoOff`; otherwise do nothing. -/
def toggleVideo (st : ClientState) : ClientState :=
  match st.localStream with
  | none => st
  | some l =>
      { st with localStream := some (l.map flipVideo), isVideoOff := !st.isVideoOff }

/-- The `onmessage` dispatcher of `connectSignaling`: on `ready` a
farmer calls `createOffer` (which sends an `offer`); an `offer` is
answered via `handleOffer` (which sends an `answer`); `answer` and
`ice-candidate` only feed the peer connection; `hangup` runs
`handleRemoteHangup`; `peer-disconnected` only sets the call status. -/
def onSignalMessage (st : ClientState) (m : SigMsg) : List OutMsg × ClientState :=
  match m with
  | SigMsg.ready => (if st.role = "farmer" then [OutMsg.offer] else [], st)
  | SigMsg.offer => ([OutMsg.answer], st)
  | SigMsg.answer => ([], st)
  | SigMsg.iceCandidate => ([], st)
  | SigMsg.hangup => ([], handleRemoteHangup st)
  | SigMsg.peerDisconnected => ([], { st with callStatus := "Peer disconnected" })

/-- The `onopen` handler of `connectSignaling`: send `ready`, and when
the role is `farmer` additionally call `createOffer` after 500 ms. -/
def onSocketOpen (st : ClientState) : List OutMsg × ClientState :=
  (if st.role = "farmer" then [OutMsg.ready, OutMsg.offer] else [OutMsg.ready], st)

/-- The `onicecandidate` handler of `initPeerConnection`: send the
candidate only when `event.candidate` is non-null and
`signalingSocket.current?.readyState === WebSocket.OPEN`. -/
def onIceCandidate (st : ClientState) (cand : Option String) : List OutMsg :=
  if cand.isSome ∧ st.socket = some ReadyState.opened then [OutMsg.iceCandidate]
  else []

/-- The events driving the `VideoCall` client. -/
inductive ClientEvent
| sockOpen
| sigMsg (m : SigMsg)
| iceEvent (cand : Option String)
| userEndCall
| userToggleMute
| userToggleVideo
deriving DecidableEq

/-- One step of the client: the messages it sends and its next state. -/
def clientStep (st : ClientState) (ev : ClientEvent) : List OutMsg × ClientState :=
  match ev with
  | ClientEvent.sockOpen => onSocketOpen st
  | ClientEvent.sigMsg m => onSignalMessage st m
  | ClientEvent.iceEvent c => (onIceCandidate st c, st)
  | ClientEvent.userEndCall => endCall st
  | ClientEvent.userToggleMute => ([], toggleMute st)
  | ClientEvent.userToggleVideo => ([], toggleVideo st)

/-- Line 39 of the `VideoCall` component:
`user?.role === 'farmer' ? 'farmer' : 'vet'` (the argument is
`user?.role`, `none` when no user is set). -/
def roleOf (userRole : Option String) : String :=
  if userRole = some "farmer" then "farmer" else "vet"

/-- The `VetDashboard` notification WebSocket `onclose` handler runs
`setTimeout(connectWebSocket, 3000)`; the scheduled delay before any
reconnect attempt is the constant 3000 ms. -/
def notifWsReconnectDelayMs (_attempt : Nat) : Nat := 3000

/-- The `VideoCall` signaling socket `onclose` handler only logs; it
schedules no reconnect, hence no delay exists. -/
def signalingReconnectDelayMs : Option Nat := none

/-- Body of the POST issued by `FarmerDashboard.handleConnectVet`. -/
structure SessionCreateReq where
  report_id : String
  farmer_id : String
  vet_id : Option String
deriving DecidableEq

/-- `handleConnectVet(reportId)`: create a video session naming the
report and the farmer, with `vet_id: null`. -/
def handleConnectVet (reportId userId : String) : SessionCreateReq :=
  { report_id := reportId, farmer_id := userId, vet_id := none }

/-- Body of the PATCH issued by `VetDashboard.joinCall`. -/
structure SessionJoinReq where
  vet_id : String
deriving DecidableEq

/-- `joinCall(sessionId, reportId)`: join the session supplying the
vet's identity. -/
def joinCall (userId : String) : SessionJoinReq :=
  { vet_id := userId }

/-- Modelled from the spec: the `CallSession.state` values `Created`,
`Active`, `Ended` (the backend session store is not among the frontend
sources). -/
inductive SessState
| created
| active
| ended
deriving DecidableEq

/-- Modelled from the spec: the `CallSession` record of the Session
Store. -/
structure CallSession where
  id : String
  reportId : String
  initiatorId : String
  counterpartId : Option String
  state : SessState
  createdAt : Nat
  endedAt : Option Nat
deriving DecidableEq

/-- Modelled from the spec: `create(reportId, initiatorId)` allocates a
fresh session in state `Created`, with no counterpart and no end time. -/
def createSession (sid reportId initiatorId : String) (now : Nat) : CallSession :=
  { id := sid, reportId := reportId, initiatorId := initiatorId,
    counterpartId := none, state := SessState.created,
    createdAt := now, endedAt := none }

/-- Modelled from the spec: the typed errors of the session layer. -/
inductive SessErr
| notFound
| alreadyJoined
| sessionEnded
deriving DecidableEq

/-- Modelled from the spec: `join(sessionId, counterpartId)` records the
counterpart identity; it fails with `AlreadyJoined` when a different
identity is already set and with `SessionEnded` on a terminal session;
`join` only records identity, it does not change the state. -/
def joinSession (s : CallSession) (cid : String) : Except SessErr CallSession :=
  if s.state = SessState.ended then Except.error SessErr.sessionEnded
  else
    match s.counterpartId with
    | some c => if c = cid then Except.ok s else Except.error SessErr.alreadyJoined
    | none => Except.ok { s with counterpartId := some cid }

/-- Modelled from the spec: `end(sessionId)` — idempotent transition to
`Ended` recording `endedAt`; a no-op on an already-`Ended` session. -/
def endSession (s : CallSession) (now : Nat) : CallSession :=
  if s.state = SessState.ended then s
  else { s with state := SessState.ended, endedAt := some now }

/-- Modelled from the spec: coordinator state — the session record plus
the Presence Registry occupancy of the two roles. -/
structure CoordState where
  sess : CallSession
  presInit : Bool
  presCounter : Bool
deriving DecidableEq

/-- Modelled from the spec: the operations driving the Lifecycle
Coordinator (join, connect, disconnect, hangup, end, abandoned-session
timeout). -/
inductive SessOp
| join (cid : String)
| connect (isInit : Bool)
| disconnect (isInit : Bool)
| hangup (now : Nat)
| endOp (now : Nat)
| timeout (now : Nat)
deriving DecidableEq

/-- Modelled from the spec: one step of the Lifecycle Coordinator.
`connect` attaches a role and moves the session to `Active` once both
roles are present (rejected on an `Ended` session); `disconnect` only
detaches (a grace window precedes any forced end); `hangup` and `end`
perform the idempotent end and detach both roles; `timeout` ends an
abandoned session still in `Created`.  Failed operations leave the
state unchanged. -/
def sessStep (c : CoordState) (op : SessOp) : CoordState :=
  match op with
  | SessOp.join cid =>
      match joinSession c.sess cid with
      | Except.ok s => { c with sess := s }
      | Except.error _ => c
  | SessOp.connect isInit =>
      if c.sess.state = SessState.ended then c
      else
        { sess := { c.sess with
            state :=
              if (c.presInit || isInit) && (c.presCounter || !isInit) then
                SessState.active
              else c.sess.state },
          presInit := c.presInit || isInit,
          presCounter := c.presCounter || !isInit }
  | SessOp.disconnect isInit =>
      if isInit then { c with presInit := false }
      else { c with presCounter := false }
  | SessOp.hangup now =>
      { c with sess := endSession c.sess now,
               presInit := false, presCounter := false }
  | SessOp.endOp now =>
      { c with sess := endSession c.sess now,
               presInit := false, presCounter := false }
  | SessOp.timeout now =>
      if c.sess.state = SessState.created then
        { c with sess := endSession c.sess now,
                 presInit := false, presCounter := false }
      else c

/-- A run of the coordinator over a sequence of operations. -/
def applySessOps (c : CoordState) (ops : List SessOp) : CoordState :=
  ops.foldl sessStep c

/-- Position of a state along the forward order
`Created -> Active -> Ended`. -/
def rank : SessState → Nat
  | SessState.created => 0
  | SessState.active => 1
  | SessState.ended => 2

/-- Every track of the (possibly absent) local stream is stopped. -/
def allTracksStopped : Option (List MediaTrack) → Bool
  | none => true
  | some l => l.all fun t => t.stopped

/-- The peer connection, when present, has been closed. -/
def pcIsClosed : Option Bool → Bool
  | none => true
  | some b => b

/-- The signaling socket, when present, is in state `closed`. -/
def socketIsClosed : Option ReadyState → Bool
  | none => true
  | some ReadyState.closed => true
  | some _ => false

/-- A concrete client state with role `farmer`, used to instantiate
universally quantified results. -/
def farmerClient : ClientState :=
  { role := "farmer", localStream := some [⟨TrackKind.audio, true, false⟩],
    pc := some false, socket := some ReadyState.opened,
    callStatus := "Connected", isMuted := false, isVideoOff := false,
    onCallPage := true }

/-- A concrete client state with no socket and no stream. -/
def bareClient : ClientState :=
  { role := "vet", localStream := none, pc := none, socket := none,
    callStatus := "Connecting...", isMuted := false, isVideoOff := false,
    onCallPage := true }

/-- C1: an `offer` is sent — on socket open, on a `ready` message, or
anywhere else in the client's event handling — only when the client's
role is `farmer`. -/
theorem offer_only_from_farmer (st : ClientState) (ev : ClientEvent)
    (h : OutMsg.offer ∈ (clientStep st ev).1) : st.role = "farmer" := by
  cases ev with
  | sockOpen =>
      by_cases hr : st.role = "farmer"
      · exact hr
      · simp [clientStep, onSocketOpen, hr] at h
  | sigMsg m =>
      cases m with
      | ready =>
          by_cases hr : st.role = "farmer"
          · exact hr
          · simp [clientStep, onSignalMessage, hr] at h
      | offer => simp [clientStep, onSignalMessage] at h
      | answer => simp [clientStep, onSignalMessage] at h
      | iceCandidate => simp [clientStep, onSignalMessage] at h
      | hangup => simp [clientStep, onSignalMessage] at h
      | peerDisconnected => simp [clientStep, onSignalMessage] at h
  | iceEvent c =>
      simp only [clientStep, onIceCandidate] at h
      split at h <;> simp_all
  | userEndCall =>
      simp only [clientStep, endCall] at h
      split at h <;> simp_all
  | userToggleMute => simp [clientStep] at h
  | userToggleVideo => simp [clientStep] at h

/-- C1 witness: a concrete farmer client does send an offer on socket
open, and the theorem applies to it. -/
theorem offer_only_from_farmer_witness : farmerClient.role = "farmer" :=
  offer_only_from_farmer farmerClient ClientEvent.sockOpen (by decide)

/-- C2: a received `hangup` stops every local track, closes the peer
connection and the signaling socket, leaves the call page, and sends
nothing; and `endCall` sends `hangup` exactly when the socket is open
(computed before teardown) and then performs the very same teardown. -/
theorem hangup_terminates_call (st : ClientState) :
    allTracksStopped (onSignalMessage st SigMsg.hangup).2.localStream = true ∧
    pcIsClosed (onSignalMessage st SigMsg.hangup).2.pc = true ∧
    socketIsClosed (onSignalMessage st SigMsg.hangup).2.socket = true ∧
    (onSignalMessage st SigMsg.hangup).2.onCallPage = false ∧
    (onSignalMessage st SigMsg.hangup).1 = [] ∧
    (endCall st).1 =
      (if st.socket = some ReadyState.opened then [OutMsg.hangup] else []) ∧
    (endCall st).2 = (onSignalMessage st SigMsg.hangup).2 := by
  obtain ⟨role, ls, pc, sock, cs, m, v, p⟩ := st
  refine ⟨?_, ?_, ?_, rfl, rfl, rfl, rfl⟩
  · cases ls with
    | none => rfl
    | some l =>
        simp [onSignalMessage, handleRemoteHangup, cleanup, allTracksStopped,
          List.all_eq_true, stopTrack]
  · cases pc <;> rfl
  · cases sock <;> rfl

/-- C3: a `peer-disconnected` notice only sets the call status; no
message is sent and the stream, peer connection, socket and page are
untouched. -/
theorem peer_disconnected_preserves_call (st : ClientState) :
    (onSignalMessage st SigMsg.peerDisconnected).1 = [] ∧
    (onSignalMessage st SigMsg.peerDisconnected).2.callStatus = "Peer disconnected" ∧
    (onSignalMessage st SigMsg.peerDisconnected).2.localStream = st.localStream ∧
    (onSignalMessage st SigMsg.peerDisconnected).2.pc = st.pc ∧
    (onSignalMessage st SigMsg.peerDisconnected).2.socket = st.socket ∧
    (onSignalMessage st SigMsg.peerDisconnected).2.onCallPage = st.onCallPage :=
  ⟨rfl, rfl, rfl, rfl, rfl, rfl⟩

/-- C4 counterexample: the reconnect delays are not exponentially
increasing — the notification socket's scheduled delay is the same for
consecutive attempts, and the signaling socket schedules no reconnect
at all. -/
theorem reconnect_backoff_counterexample :
    ¬ notifWsReconnectDelayMs 0 < notifWsReconnectDelayMs 1 ∧
    signalingReconnectDelayMs = none := by
  exact ⟨by decide, rfl⟩

/-- C4 amended: on close, the notification WebSocket schedules a
reconnect after a fixed 3000 ms delay, identical for every attempt,
and the signaling WebSocket's `onclose` handler schedules no reconnect. -/
theorem reconnect_fixed_delay :
    (∀ n, notifWsReconnectDelayMs n = 3000) ∧
    signalingReconnectDelayMs = none :=
  ⟨fun _ => rfl, rfl⟩

/-- C5: the create-session request built by `handleConnectVet` carries
a null `vet_id` and names the report and the farmer; the counterpart
identity appears only in the later join request from the vet
dashboard. -/
theorem create_request_leaves_vet_unset (r u v : String) :
    (handleConnectVet r u).vet_id = none ∧
    (handleConnectVet r u).report_id = r ∧
    (handleConnectVet r u).farmer_id = u ∧
    (joinCall v).vet_id = v :=
  ⟨rfl, rfl, rfl, rfl⟩

/-- A successful `join` does not change the session state. -/
theorem joinSession_ok_state {s s2 : CallSession} {cid : String}
    (h : joinSession s cid = Except.ok s2) : s2.state = s.state := by
  unfold joinSession at h
  split at h
  · cases h
  · split at h
    · split at h
      · injection h with h2
        rw [← h2]
      · cases h
    · injection h with h2
      rw [← h2]

/-- Every state sits at rank at most 2. -/
theorem rank_le_two (st : SessState) : rank st ≤ 2 := by
  cases st <;> decide

/-- `end` never lowers the rank of the session state. -/
theorem endSession_rank_le (s : CallSession) (t : Nat) :
    rank s.state ≤ rank (endSession s t).state := by
  unfold endSession
  split
  · exact Nat.le_refl _
  · exact rank_le_two s.state

/-- A single coordinator step never lowers the rank of the state. -/
theorem sessStep_rank_le (c : CoordState) (op : SessOp) :
    rank c.sess.state ≤ rank (sessStep c op).sess.state := by
  cases op with
  | join cid =>
      simp only [sessStep]
      split
      · rename_i s2 h
        rw [joinSession_ok_state h]
      · exact Nat.le_refl _
  | connect isInit =>
      simp only [sessStep]
      split
      · exact Nat.le_refl _
      · rename_i hne
        split
        · show rank c.sess.state ≤ rank SessState.active
          cases hs : c.sess.state with
          | created => decide
          | active => decide
          | ended => exact absurd hs hne
        · exact Nat.le_refl _
  | disconnect isInit => cases isInit <;> exact Nat.le_refl _
  | hangup now => exact endSession_rank_le c.sess now
  | endOp now => exact endSession_rank_le c.sess now
  | timeout now =>
      simp only [sessStep]
      split
      · exact endSession_rank_le c.sess now
      · exact Nat.le_refl _

/-- A single coordinator step keeps an `Ended` session `Ended`. -/
theorem sessStep_ended (c : CoordState) (op : SessOp)
    (h : c.sess.state = SessState.ended) :
    (sessStep c op).sess.state = SessState.ended := by
  cases op with
  | join cid =>
      simp only [sessStep]
      split
      · rename_i s2 heq
        rw [joinSession_ok_state heq, h]
      · exact h
  | connect isInit =>
      simp only [sessStep]
      rw [if_pos h]
      exact h
  | disconnect isInit => cases isInit <;> exact h
  | hangup now => simp only [sessStep, endSession, h, if_pos]
  | endOp now => simp only [sessStep, endSession, h, if_pos]
  | timeout now =>
      simp only [sessStep]
      split
      · rename_i hc
        rw [h] at hc
        cases hc
      · exact h

/-- Rank never decreases along any run of the coordinator. -/
theorem applySessOps_rank_le (ops : List SessOp) :
    ∀ c : CoordState, rank c.sess.state ≤ rank (applySessOps c ops).sess.state := by
  induction ops with
  | nil => intro c; exact Nat.le_refl _
  | cons op rest ih =>
      intro c
      exact Nat.le_trans (sessStep_rank_le c op) (ih (sessStep c op))

/-- `Ended` is preserved along any run of the coordinator. -/
theorem applySessOps_ended (ops : List SessOp) :
    ∀ c : CoordState, c.sess.state = SessState.ended →
      (applySessOps c ops).sess.state = SessState.ended := by
  induction ops with
  | nil => intro c h; exact h
  | cons op rest ih =>
      intro c h
      exact ih (sessStep c op) (sessStep_ended c op h)

/-- C6: along every sequence of coordinator operations the session
state only moves forward along `Created -> Active -> Ended`, and
`Ended` is terminal. -/
theorem session_state_monotone (c : CoordState) (ops : List SessOp) :
    rank c.sess.state ≤ rank (applySessOps c ops).sess.state ∧
    (c.sess.state = SessState.ended →
      (applySessOps c ops).sess.state = SessState.ended) :=
  ⟨applySessOps_rank_le ops c, applySessOps_ended ops c⟩

/-- C6 witness: a concrete ended session stays ended across a connect
attempt. -/
theorem session_state_monotone_witness :
    (applySessOps
      { sess := endSession (createSession "s1" "r1" "farmerA" 0) 5,
        presInit := false, presCounter := false }
      [SessOp.connect true]).sess.state = SessState.ended :=
  (session_state_monotone
    { sess := endSession (createSession "s1" "r1" "farmerA" 0) 5,
      presInit := false, presCounter := false }
    [SessOp.connect true]).2 (by decide)

/-- C7: `end` is idempotent — applying it twice yields the same
terminal record as applying it once, and on an already-`Ended` session
it is a no-op returning the record unchanged. -/
theorem end_session_idempotent (s : CallSession) (t t2 : Nat) :
    endSession (endSession s t) t2 = endSession s t ∧
    (s.state = SessState.ended → endSession s t = s) := by
  constructor
  · by_cases h : s.state = SessState.ended
    · simp [endSession, h]
    · simp [endSession, h]
  · intro h
    simp [endSession, h]

/-- C7 witness: ending an already-ended concrete session returns it
unchanged. -/
theorem end_session_idempotent_witness :
    endSession (endSession (createSession "s1" "r1" "farmerA" 0) 2) 7 =
      endSession (createSession "s1" "r1" "farmerA" 0) 2 :=
  (end_session_idempotent (endSession (createSession "s1" "r1" "farmerA" 0) 2) 7 9).2
    (by decide)

/-- C8: the signaling role is a total two-valued function of the
application role — `farmer` exactly when the user role is `farmer`,
otherwise `vet`, and nothing else. -/
theorem roleOf_total_two_valued (u : Option String) :
    (roleOf u = "farmer" ↔ u = some "farmer") ∧
    (u ≠ some "farmer" → roleOf u = "vet") ∧
    (roleOf u = "farmer" ∨ roleOf u = "vet") := by
  by_cases h : u = some "farmer"
  · simp [roleOf, h]
  · simp [roleOf, h]

/-- C8 witness: an `admin` user connects with role `vet`. -/
theorem roleOf_total_two_valued_witness : roleOf (some "admin") = "vet" :=
  (roleOf_total_two_valued (some "admin")).2.1 (by decide)

/-- C9: an `ice-candidate` message is sent if and only if the event
carries a candidate and the socket exists in the OPEN state; otherwise
nothing is sent. -/
theorem ice_candidate_send_iff (st : ClientState) (cand : Option String) :
    (OutMsg.iceCandidate ∈ onIceCandidate st cand ↔
      cand.isSome = true ∧ st.socket = some ReadyState.opened) ∧
    (¬ (cand.isSome = true ∧ st.socket = some ReadyState.opened) →
      onIceCandidate st cand = []) := by
  unfold onIceCandidate
  by_cases h : cand.isSome = true ∧ st.socket = some ReadyState.opened
  · simp [h]
  · simp [h]

/-- C9 witness: with a candidate but no socket, nothing is sent. -/
theorem ice_candidate_send_iff_witness :
    onIceCandidate bareClient (some "cand") = [] :=
  (ice_candidate_send_iff bareClient (some "cand")).2 (by decide)

/-- Flipping an audio track's `enabled` flag twice restores the track. -/
theorem flipAudio_invol (t : MediaTrack) : flipAudio (flipAudio t) = t := by
  obtain ⟨k, e, s⟩ := t
  by_cases h : k = TrackKind.audio <;> simp [flipAudio, h]

/-- Flipping a video track's `enabled` flag twice restores the track. -/
theorem flipVideo_invol (t : MediaTrack) : flipVideo (flipVideo t) = t := by
  obtain ⟨k, e, s⟩ := t
  by_cases h : k = TrackKind.video <;> simp [flipVideo, h]

/-- C10: `toggleMute` and `toggleVideo` are self-inverse on the whole
client state, and both are no-ops when no local stream exists. -/
theorem toggle_mute_video_involutive (st : ClientState) :
    toggleMute (toggleMute st) = st ∧
    toggleVideo (toggleVideo st) = st ∧
    (st.localStream = none → toggleMute st = st ∧ toggleVideo st = st) := by
  obtain ⟨role, ls, pc, sock, cs, m, v, p⟩ := st
  refine ⟨?_, ?_, ?_⟩
  · cases ls with
    | none => rfl
    | some l =>
        simp [toggleMute, List.map_map, Function.comp_def, flipAudio_invol,
          Bool.not_not, List.map_id]
  · cases ls with
    | none => rfl
    | some l =>
        simp [toggleVideo, List.map_map, Function.comp_def, flipVideo_invol,
          Bool.not_not, List.map_id]
  · intro h
    cases h
    exact ⟨rfl, rfl⟩

/-- C10 witness: on a client with no local stream both toggles are
no-ops. -/
theorem toggle_mute_video_involutive_witness :
    toggleMute bareClient = bareClient ∧ toggleVideo bareClient = bareClient :=
  (toggle_mute_video_involutive bareClient).2.2 rfl

end FarmPulse
